import Mathlib

/-!
# Verification of `scripts/fetch_and_plot.py`

A shallow embedding of the weather-forecast fetch-and-plot script, together
with proofs of the behavioural properties claimed in its specification.

The script walks a 5-day lookback window of date/hour-stamped S3 path
candidates for each configured provider, selects the first GRIB2 file that
matches a per-provider filename filter, downloads it, opens it filtered to
the surface level, normalises variable names, and renders a temperature and
a wind image.  External effects (storage listings, download success,
dataset parsing, file writes) are modelled by an explicit environment and
an effect record.
-/

namespace FetchPlot

/-! ## String helpers

Executable embeddings of Python's `str.endswith` and the substring test
`pat in s`.  `isLeadOf pat s` holds when `pat` is an initial segment of
`s`; `occursIn pat s` when `pat` occurs contiguously anywhere in `s`
(in particular the empty pattern occurs in every string, as in Python). -/

def isLeadOf : List Char → List Char → Bool
  | [], _ => true
  | _ :: _, [] => false
  | a :: as, b :: bs => a == b && isLeadOf as bs

def occursIn (pat : List Char) : List Char → Bool
  | [] => isLeadOf pat []
  | b :: bs => isLeadOf pat (b :: bs) || occursIn pat bs

/-- Python `pat in s` (substring containment). -/
def hasSubstr (s pat : String) : Bool := occursIn pat.data s.data

/-- Python `s.endswith(pat)`. -/
def strEndsWith (s pat : String) : Bool := isLeadOf pat.data.reverse s.data.reverse

/-! ## Configuration (`BUCKET_CONFIG`) -/

/-- One provider descriptor of `BUCKET_CONFIG`: bucket name, source kind
(`"noaa"` or `"ecmwf"`), and for NOAA sources the path stem stored in the
script under the key `prefix_base`. -/
structure ProviderConfig where
  bucket : String
  source : String
  base : Option String
deriving DecidableEq, Repr

/-- The `BUCKET_CONFIG` dictionary: association list of model name to
provider descriptor, in the script's insertion order. -/
def BUCKET_CONFIG : List (String × ProviderConfig) :=
  [("EURO-AIFS", ⟨"ecmwf-forecasts", "ecmwf", none⟩),
   ("EAGLE-GraphCast", ⟨"noaa-nws-graphcastgfs-pds", "noaa", some "graphcastgfs"⟩),
   ("FourCastNet", ⟨"noaa-nws-fourcastnetgfs-pds", "noaa", some "fcngfs"⟩)]

/-! ## The resolver and selector (`find_latest_data`)

The date arithmetic of the script (`datetime.utcnow()` minus `i` days,
formatted `%Y%m%d`) is abstracted into a function `dateStr : Nat → String`
giving the formatted date `i` days back; the claims are about the probing
structure, which does not depend on the calendar encoding.  The storage
backend is a function `listing` from a path to the list of keys S3 returns
for it (`[]` when the response has no `Contents`). -/

/-- The per-key file filter of the inner loop of `find_latest_data`:
NOAA keys must end in `.grib2` and contain `f012` or `f006`; ECMWF keys
must end in `.grib2`; any other source matches nothing (the Python
`if`/`elif` falls through). -/
def matchKey (source : String) (key : String) : Bool :=
  if source = "noaa" then
    strEndsWith key ".grib2" && (hasSubstr key "f012" || hasSubstr key "f006")
  else if source = "ecmwf" then
    strEndsWith key ".grib2"
  else false

/-- The selector: scanning the listing of one path, return the first key
passing the filter (the inner `for obj in resp['Contents']` loop). -/
def selectKey (source : String) (keys : List String) : Option String :=
  keys.find? (matchKey source)

/-- The `prefixes_to_check` list built for one date string: NOAA sources
probe hours 00, 12, 06, 18, each with a `forecasts/` variant then a bare
variant; the ECMWF source probes the 00z and 12z cycle paths. -/
def pathsToCheck (config : ProviderConfig) (date_str : String) : List String :=
  if config.source = "noaa" then
    let base := config.base.getD ""
    (["00", "12", "06", "18"]).flatMap (fun hour =>
      [base ++ "." ++ date_str ++ "/" ++ hour ++ "/forecasts/",
       base ++ "." ++ date_str ++ "/" ++ hour ++ "/"])
  else
    [date_str ++ "/00z/aifs/0p25/oper/", date_str ++ "/12z/aifs/0p25/oper/"]

/-- Scan a list of candidate paths left to right, returning the first
selector hit (a path whose listing is empty, or non-empty with no
matching key, is passed over). -/
def scanPaths (source : String) (listing : String → List String) :
    List String → Option String
  | [] => none
  | p :: ps =>
    match selectKey source (listing p) with
    | some k => some k
    | none => scanPaths source listing ps

/-- The day loop of `find_latest_data` over a list of day offsets:
for each day's candidate paths, scan each path's listing with the
selector and return the first hit together with that day's date string. -/
def findLatestAux (config : ProviderConfig) (listing : String → List String)
    (dateStr : Nat → String) : List Nat → Option (String × String)
  | [] => none
  | i :: is =>
    match scanPaths config.source listing (pathsToCheck config (dateStr i)) with
    | some k => some (k, dateStr i)
    | none => findLatestAux config listing dateStr is

/-- `find_latest_data`: probe the last 5 days (day offsets 0,1,2,3,4);
`none` embeds the Python return `(None, None)`. -/
def find_latest_data (config : ProviderConfig) (listing : String → List String)
    (dateStr : Nat → String) : Option (String × String) :=
  findLatestAux config listing dateStr (List.range 5)

/-- The full ordered sequence of paths the resolver may probe for one
provider (5 days, most recent day offset first). -/
def probeSeq (config : ProviderConfig) (dateStr : Nat → String) : List String :=
  (List.range 5).flatMap (fun i => pathsToCheck config (dateStr i))

/-! ## Probe traces

Traced variants of the scan returning, alongside the result, the list of
paths for which an S3 listing request is actually issued (the script
prints a `Checking:` line and calls `list_objects_v2` once per probed
path, stopping as soon as a key is returned). -/

/-- Traced path scan: the paths probed, and the selector result. -/
def scanPathsTr (source : String) (listing : String → List String) :
    List String → List String × Option String
  | [] => ([], none)
  | p :: ps =>
    match selectKey source (listing p) with
    | some k => ([p], some k)
    | none =>
      let r := scanPathsTr source listing ps
      (p :: r.1, r.2)

/-- Traced day loop. -/
def findLatestTrAux (config : ProviderConfig) (listing : String → List String)
    (dateStr : Nat → String) : List Nat → List String × Option (String × String)
  | [] => ([], none)
  | i :: is =>
    let r := scanPathsTr config.source listing (pathsToCheck config (dateStr i))
    match r.2 with
    | some k => (r.1, some (k, dateStr i))
    | none =>
      let r2 := findLatestTrAux config listing dateStr is
      (r.1 ++ r2.1, r2.2)

/-- The paths `find_latest_data` actually probes, in order. -/
def probedPaths (config : ProviderConfig) (listing : String → List String)
    (dateStr : Nat → String) : List String :=
  (findLatestTrAux config listing dateStr (List.range 5)).1

/-! ## Variable normalisation

`process_model` maps dataset field names to the canonical roles with
`next((v for v in data_vars if v in aliases), None)`, i.e. the first
field name occurring in the role's alias list, defaulting to `None`. -/

def t_aliases : List String := ["t2m", "tmp", "2t"]

def u_aliases : List String := ["u10", "ugrd", "10u"]

def v_aliases : List String := ["v10", "vgrd", "10v"]

/-- The temperature role lookup (`t_var` in the script). -/
def t_var (data_vars : List String) : Option String :=
  data_vars.find? (fun v => t_aliases.contains v)

/-- The u-wind role lookup (`u_var` in the script). -/
def u_var (data_vars : List String) : Option String :=
  data_vars.find? (fun v => u_aliases.contains v)

/-- The v-wind role lookup (`v_var` in the script). -/
def v_var (data_vars : List String) : Option String :=
  data_vars.find? (fun v => v_aliases.contains v)

/-! ## Processing one provider (`process_model`)

The external world is an `Env`: the storage listings, whether
`s3.download_file` succeeds for a given key, and the outcome of
`xr.open_dataset` on the downloaded file (`none` when it raises, or the
dataset's `data_vars` list when it succeeds).  The observable effects are
recorded in an `Effects` value: download attempts, image files written,
and warning lines printed. -/

structure Env where
  listing : String → List String
  dateStr : Nat → String
  downloadOk : String → Bool
  openResult : Option (List String)

structure Effects where
  downloads : List String
  images : List String
  warnings : List String
deriving DecidableEq, Repr

/-- Path of the temperature image written for a model. -/
def tempPng (model_name : String) : String :=
  "assets/" ++ model_name ++ "_temp.png"

/-- Path of the wind image written for a model. -/
def windPng (model_name : String) : String :=
  "assets/" ++ model_name ++ "_wind.png"

/-- The rendering section of `process_model`: given the dataset's field
names, write the temperature image when the temperature role resolved
(else print a warning), then the wind image when both wind roles resolved
(else print a warning).  Returns (images written, warnings printed). -/
def renderSection (model_name : String) (data_vars : List String) :
    List String × List String :=
  let tPart : List String × List String :=
    match t_var data_vars with
    | some _ => ([tempPng model_name], [])
    | none => ([], [model_name ++ ": No temperature variable found"])
  let wPart : List String × List String :=
    match u_var data_vars, v_var data_vars with
    | some _, some _ => ([windPng model_name], [])
    | _, _ => ([], [model_name ++ ": No wind variables found"])
  (tPart.1 ++ wPart.1, tPart.2 ++ wPart.2)

/-- `process_model`: resolve the latest data for the provider, download
it, open it, render.  The provider descriptor is the `BUCKET_CONFIG`
entry for `model_name` (the script looks it up by key).  Returns the
boolean result together with the observable effects. -/
def process_model (env : Env) (model_name : String) (config : ProviderConfig) :
    Bool × Effects :=
  match find_latest_data config env.listing env.dateStr with
  | none => (false, ⟨[], [], []⟩)
  | some (key, _date_str) =>
    if env.downloadOk key then
      match env.openResult with
      | none => (false, ⟨[key], [], []⟩)
      | some data_vars =>
        let r := renderSection model_name data_vars
        (true, ⟨[key], r.1, r.2⟩)
    else (false, ⟨[key], [], []⟩)

/-! ## Main (`__main__` block) -/

/-- The main loop: run `process_model` for every provider of
`BUCKET_CONFIG` in order, recording each provider's boolean outcome.
The loop never breaks, so every provider is processed. -/
def mainLoop (env : Env) : List (String × Bool) :=
  BUCKET_CONFIG.map (fun e => (e.1, (process_model env e.1 e.2).1))

/-- `success_count` after the main loop. -/
def success_count (env : Env) : Nat :=
  (mainLoop env).countP (fun e => e.2)

/-- The process exit status: `sys.exit(1)` when no provider succeeded,
otherwise the script falls off the end and exits 0. -/
def exitCode (env : Env) : Nat :=
  if success_count env = 0 then 1 else 0

/-! ## Cycle annotations for the probing order

To reason about the forecast-cycle recency structure of the probe
sequence, each candidate path is annotated with its forecast cycle: the
pair (day offset, cycle hour).  `annPathsDay` rebuilds `pathsToCheck`
with these annotations; `annProbeSeq` is the annotated probe sequence. -/

/-- The candidate paths of one day, annotated with (day offset, hour). -/
def annPathsDay (config : ProviderConfig) (i : Nat) (date_str : String) :
    List ((Nat × Nat) × String) :=
  if config.source = "noaa" then
    let base := config.base.getD ""
    [((i, 0), base ++ "." ++ date_str ++ "/" ++ "00" ++ "/forecasts/"),
     ((i, 0), base ++ "." ++ date_str ++ "/" ++ "00" ++ "/"),
     ((i, 12), base ++ "." ++ date_str ++ "/" ++ "12" ++ "/forecasts/"),
     ((i, 12), base ++ "." ++ date_str ++ "/" ++ "12" ++ "/"),
     ((i, 6), base ++ "." ++ date_str ++ "/" ++ "06" ++ "/forecasts/"),
     ((i, 6), base ++ "." ++ date_str ++ "/" ++ "06" ++ "/"),
     ((i, 18), base ++ "." ++ date_str ++ "/" ++ "18" ++ "/forecasts/"),
     ((i, 18), base ++ "." ++ date_str ++ "/" ++ "18" ++ "/")]
  else
    [((i, 0), date_str ++ "/00z/aifs/0p25/oper/"),
     ((i, 12), date_str ++ "/12z/aifs/0p25/oper/")]

/-- The annotated probe sequence over the 5-day window. -/
def annProbeSeq (config : ProviderConfig) (dateStr : Nat → String) :
    List ((Nat × Nat) × String) :=
  (List.range 5).flatMap (fun i => annPathsDay config i (dateStr i))

/-- The cycle (day offset, hour) sequence of the probe order; it does not
depend on the date strings. -/
def annCycleList (config : ProviderConfig) : List (Nat × Nat) :=
  (List.range 5).flatMap (fun i =>
    if config.source = "noaa" then
      [(i, 0), (i, 0), (i, 12), (i, 12), (i, 6), (i, 6), (i, 18), (i, 18)]
    else [(i, 0), (i, 12)])

/-- Cycle `a` is strictly more recent than cycle `b`: an earlier day
offset, or the same day with a later cycle hour. -/
def moreRecent (a b : Nat × Nat) : Prop :=
  a.1 < b.1 ∨ (a.1 = b.1 ∧ b.2 < a.2)

instance (a b : Nat × Nat) : Decidable (moreRecent a b) := by
  unfold moreRecent; infer_instance

/-! ## Properties of the path scan -/

theorem scanPaths_nil (source : String) (listing : String → List String) :
    scanPaths source listing [] = none := rfl

theorem scanPaths_cons (source : String) (listing : String → List String)
    (p : String) (ps : List String) :
    scanPaths source listing (p :: ps) =
      (selectKey source (listing p)).or (scanPaths source listing ps) := by
  cases h : selectKey source (listing p) <;> simp [scanPaths, h]

theorem scanPaths_append (source : String) (listing : String → List String)
    (l1 l2 : List String) :
    scanPaths source listing (l1 ++ l2) =
      (scanPaths source listing l1).or (scanPaths source listing l2) := by
  induction l1 with
  | nil => simp [scanPaths_nil]
  | cons p ps ih =>
    rw [List.cons_append, scanPaths_cons, scanPaths_cons, ih, Option.or_assoc]

/-- The scan over a path list is: locate the first path whose listing has
a selector hit, then select from that path's listing. -/
theorem scanPaths_eq (source : String) (listing : String → List String)
    (ps : List String) :
    scanPaths source listing ps =
      (ps.find? (fun q => (selectKey source (listing q)).isSome)).bind
        (fun p => selectKey source (listing p)) := by
  induction ps with
  | nil => rfl
  | cons p ps ih =>
    rw [scanPaths_cons]
    cases h : selectKey source (listing p) with
    | some k =>
      rw [List.find?_cons_of_pos _ (by simp [h])]
      simp [h]
    | none =>
      rw [List.find?_cons_of_neg _ (by simp [h])]
      simp [h, ih]

theorem scanPaths_none_iff (source : String) (listing : String → List String)
    (ps : List String) :
    scanPaths source listing ps = none ↔
      ∀ p ∈ ps, ∀ k ∈ listing p, matchKey source k = false := by
  induction ps with
  | nil => simp [scanPaths_nil]
  | cons p ps ih =>
    rw [scanPaths_cons]
    cases h : selectKey source (listing p) with
    | some k =>
      have h' : (listing p).find? (matchKey source) = some k := h
      have hk : matchKey source k = true := List.find?_some h'
      have hmem : k ∈ listing p := List.mem_of_find?_eq_some h'
      simp only [Option.or_some]
      constructor
      · intro hc; exact absurd hc (by simp)
      · intro hall
        have := hall p (List.mem_cons_self p ps) k hmem
        rw [hk] at this; exact absurd this (by simp)
    | none =>
      have h' : (listing p).find? (matchKey source) = none := h
      have hnone : ∀ k ∈ listing p, matchKey source k = false := by
        intro k hk
        have := List.find?_eq_none.mp h' k hk
        simpa using this
      rw [Option.none_or, ih]
      constructor
      · intro hall q hq k hk
        rcases List.mem_cons.mp hq with rfl | hq'
        · exact hnone k hk
        · exact hall q hq' k hk
      · intro hall q hq k hk
        exact hall q (List.mem_cons_of_mem _ hq) k hk

theorem scan_find?_eq_none (source : String) (listing : String → List String)
    (ps : List String) (h : scanPaths source listing ps = none) :
    ps.find? (fun q => (selectKey source (listing q)).isSome) = none := by
  rw [scanPaths_eq] at h
  cases hf : ps.find? (fun q => (selectKey source (listing q)).isSome) with
  | none => rfl
  | some p =>
    rw [hf] at h
    have hp : (selectKey source (listing p)).isSome := by
      simpa using List.find?_some hf
    obtain ⟨k, hk⟩ := Option.isSome_iff_exists.mp hp
    rw [Option.some_bind, hk] at h
    exact absurd h (by simp)

/-! ## Relating `find_latest_data` to the flat probe sequence -/

theorem findLatestAux_fst (config : ProviderConfig)
    (listing : String → List String) (dateStr : Nat → String)
    (days : List Nat) :
    (findLatestAux config listing dateStr days).map Prod.fst =
      scanPaths config.source listing
        (days.flatMap (fun i => pathsToCheck config (dateStr i))) := by
  induction days with
  | nil => rfl
  | cons i is ih =>
    rw [List.flatMap_cons, scanPaths_append]
    cases h : scanPaths config.source listing (pathsToCheck config (dateStr i)) with
    | some k => simp [findLatestAux, h]
    | none => simp [findLatestAux, h, ih]

/-- The first component of `find_latest_data` is the scan of the full
5-day probe sequence. -/
theorem find_latest_fst (config : ProviderConfig)
    (listing : String → List String) (dateStr : Nat → String) :
    (find_latest_data config listing dateStr).map Prod.fst =
      scanPaths config.source listing (probeSeq config dateStr) :=
  findLatestAux_fst config listing dateStr (List.range 5)

/-! ## Trace characterisation -/

theorem scanPathsTr_snd (source : String) (listing : String → List String)
    (ps : List String) :
    (scanPathsTr source listing ps).2 = scanPaths source listing ps := by
  induction ps with
  | nil => rfl
  | cons p ps ih =>
    cases h : selectKey source (listing p) with
    | some k => simp [scanPathsTr, scanPaths, h]
    | none => simp [scanPathsTr, scanPaths, h, ih]

theorem scanPathsTr_fst (source : String) (listing : String → List String)
    (ps : List String) :
    (scanPathsTr source listing ps).1 =
      ps.takeWhile (fun q => (selectKey source (listing q)).isNone) ++
        (ps.find? (fun q => (selectKey source (listing q)).isSome)).toList := by
  induction ps with
  | nil => rfl
  | cons p ps ih =>
    cases h : selectKey source (listing p) with
    | some k =>
      rw [List.takeWhile_cons_of_neg (by simp [h]),
        List.find?_cons_of_pos _ (by simp [h])]
      simp [scanPathsTr, h]
    | none =>
      rw [List.takeWhile_cons_of_pos (by simp [h]),
        List.find?_cons_of_neg _ (by simp [h])]
      simp [scanPathsTr, h, ih]

theorem takeWhile_of_all {α : Type} (p : α → Bool) (l : List α)
    (h : ∀ a ∈ l, p a = true) : l.takeWhile p = l := by
  induction l with
  | nil => rfl
  | cons a l ih =>
    rw [List.takeWhile_cons_of_pos (h a (List.mem_cons_self a l))]
    rw [ih (fun b hb => h b (List.mem_cons_of_mem _ hb))]

theorem findLatestTrAux_snd (config : ProviderConfig)
    (listing : String → List String) (dateStr : Nat → String)
    (days : List Nat) :
    (findLatestTrAux config listing dateStr days).2 =
      findLatestAux config listing dateStr days := by
  induction days with
  | nil => rfl
  | cons i is ih =>
    simp only [findLatestTrAux, findLatestAux, scanPathsTr_snd]
    cases h : scanPaths config.source listing (pathsToCheck config (dateStr i)) with
    | some k => simp [h]
    | none => simp [h, ih]

/-- The probed paths are exactly the probe-sequence paths up to (but not
including) the first one with a selector hit, followed by that path when
it exists. -/
theorem findLatestTrAux_fst (config : ProviderConfig)
    (listing : String → List String) (dateStr : Nat → String)
    (days : List Nat) :
    (findLatestTrAux config listing dateStr days).1 =
      (days.flatMap (fun i => pathsToCheck config (dateStr i))).takeWhile
          (fun q => (selectKey config.source (listing q)).isNone) ++
        ((days.flatMap (fun i => pathsToCheck config (dateStr i))).find?
            (fun q => (selectKey config.source (listing q)).isSome)).toList := by
  induction days with
  | nil => rfl
  | cons i is ih =>
    rw [List.flatMap_cons]
    cases h : scanPaths config.source listing (pathsToCheck config (dateStr i)) with
    | some k =>
      have htr : (scanPathsTr config.source listing
          (pathsToCheck config (dateStr i))).2 = some k := by
        rw [scanPathsTr_snd]; exact h
      have hb := (scanPaths_eq config.source listing
        (pathsToCheck config (dateStr i))) ▸ h
      obtain ⟨p, hp, -⟩ := Option.bind_eq_some.mp hb
      have hpOn : (selectKey config.source (listing p)).isSome := by
        simpa using List.find?_some hp
      have hpmem : p ∈ pathsToCheck config (dateStr i) :=
        List.mem_of_find?_eq_some hp
      have hnotall : ((pathsToCheck config (dateStr i)).takeWhile
          (fun q => (selectKey config.source (listing q)).isNone)).length ≠
          (pathsToCheck config (dateStr i)).length := by
        intro hlen
        have hself : (pathsToCheck config (dateStr i)).takeWhile
            (fun q => (selectKey config.source (listing q)).isNone) =
            pathsToCheck config (dateStr i) :=
          List.Sublist.eq_of_length (List.takeWhile_sublist _) hlen
        have hq' : p ∈ (pathsToCheck config (dateStr i)).takeWhile
            (fun q => (selectKey config.source (listing q)).isNone) := by
          rw [hself]; exact hpmem
        have hoff := List.mem_takeWhile_imp
          (p := fun q => (selectKey config.source (listing q)).isNone) hq'
        simp only [Option.isNone_iff_eq_none] at hoff
        rw [hoff] at hpOn
        exact absurd hpOn (by simp)
      simp only [findLatestTrAux, htr]
      rw [scanPathsTr_fst, List.takeWhile_append, if_neg hnotall,
        List.find?_append, hp, Option.or_some]
    | none =>
      have htr : (scanPathsTr config.source listing
          (pathsToCheck config (dateStr i))).2 = none := by
        rw [scanPathsTr_snd]; exact h
      have hfn := scan_find?_eq_none config.source listing _ h
      have hall : ∀ q ∈ pathsToCheck config (dateStr i),
          (fun q => (selectKey config.source (listing q)).isNone) q = true := by
        intro q hq
        have := List.find?_eq_none.mp hfn q hq
        simpa using this
      simp only [findLatestTrAux, htr]
      rw [scanPathsTr_fst, hfn, List.takeWhile_append,
        if_pos (by rw [takeWhile_of_all _ _ hall]), List.find?_append, hfn,
        Option.none_or, takeWhile_of_all _ _ hall, ih]
      simp [List.append_assoc]

/-- Unconditional trace description for `find_latest_data`. -/
theorem probedPaths_eq (config : ProviderConfig)
    (listing : String → List String) (dateStr : Nat → String) :
    probedPaths config listing dateStr =
      (probeSeq config dateStr).takeWhile
          (fun q => (selectKey config.source (listing q)).isNone) ++
        ((probeSeq config dateStr).find?
            (fun q => (selectKey config.source (listing q)).isSome)).toList :=
  findLatestTrAux_fst config listing dateStr (List.range 5)

/-! ## Reduction lemmas for `process_model` -/

/-- The three provider descriptors, named for reuse in concrete
instantiations. -/
def euroCfg : ProviderConfig := ⟨"ecmwf-forecasts", "ecmwf", none⟩

def eagleCfg : ProviderConfig := ⟨"noaa-nws-graphcastgfs-pds", "noaa", some "graphcastgfs"⟩

def fcnCfg : ProviderConfig := ⟨"noaa-nws-fourcastnetgfs-pds", "noaa", some "fcngfs"⟩

theorem process_model_of_none (env : Env) (model_name : String)
    (config : ProviderConfig)
    (h : find_latest_data config env.listing env.dateStr = none) :
    process_model env model_name config = (false, ⟨[], [], []⟩) := by
  simp [process_model, h]

theorem process_model_of_ok (env : Env) (model_name : String)
    (config : ProviderConfig) (k ds : String) (vars : List String)
    (hfind : find_latest_data config env.listing env.dateStr = some (k, ds))
    (hdl : env.downloadOk k = true)
    (hopen : env.openResult = some vars) :
    process_model env model_name config =
      (true, ⟨[k], (renderSection model_name vars).1,
        (renderSection model_name vars).2⟩) := by
  simp [process_model, hfind, hdl, hopen]

/-- The temperature and wind image paths of one model differ. -/
theorem tempPng_ne_windPng (model_name : String) :
    tempPng model_name ≠ windPng model_name := by
  intro h
  have hd : (tempPng model_name).data = (windPng model_name).data := by rw [h]
  simp only [tempPng, windPng, String.data_append] at hd
  have := List.append_inj_right' hd (by rfl)
  exact absurd this (by decide)

/-! ## Claim C1, C2, C3, C4 -/

/-- C1: the process exit status is non-zero if and only if zero providers
succeeded.  The main loop runs `process_model` for every provider of
`BUCKET_CONFIG` regardless of earlier providers' failures (the loop's
provider list is exactly `BUCKET_CONFIG`'s key list), and the exit code
is non-zero exactly when the count of providers for which `process_model`
returned `true` is zero. -/
theorem C1_exit_status_iff_no_success (env : Env) :
    (mainLoop env).map Prod.fst = BUCKET_CONFIG.map Prod.fst ∧
    (exitCode env ≠ 0 ↔ success_count env = 0) := by
  constructor
  · simp [mainLoop, List.map_map, Function.comp]
  · by_cases h : success_count env = 0 <;> simp [exitCode, h]

/-- C2: whenever `find_latest_data` returns a key, that key ends with
`.grib2`, for every provider descriptor, storage listing and date
assignment. -/
theorem C2_selected_key_has_grib2_ext (config : ProviderConfig)
    (listing : String → List String) (dateStr : Nat → String)
    (k ds : String)
    (h : find_latest_data config listing dateStr = some (k, ds)) :
    strEndsWith k ".grib2" = true := by
  have h1 : (find_latest_data config listing dateStr).map Prod.fst = some k := by
    rw [h]; rfl
  rw [find_latest_fst, scanPaths_eq] at h1
  obtain ⟨p, hp, hsel⟩ := Option.bind_eq_some.mp h1
  have hsel' : (listing p).find? (matchKey config.source) = some k := hsel
  have hmk : matchKey config.source k = true := List.find?_some hsel'
  unfold matchKey at hmk
  by_cases hn : config.source = "noaa"
  · rw [if_pos hn] at hmk
    rw [Bool.and_eq_true] at hmk
    exact hmk.1
  · rw [if_neg hn] at hmk
    by_cases he : config.source = "ecmwf"
    · rw [if_pos he] at hmk; exact hmk
    · rw [if_neg he] at hmk; cases hmk

/-- Concrete storage backend for the C2 witness: one GRIB2 object under
the most recent ECMWF 00z path. -/
def w2Listing : String → List String :=
  fun p => if p = "0/00z/aifs/0p25/oper/" then ["x.grib2"] else []

/-- Date assignment used by concrete instantiations: day offset `i` is
formatted as the string `toString i`. -/
def wDate : Nat → String := fun i => toString i

theorem C2_selected_key_has_grib2_ext_witness :
    strEndsWith "x.grib2" ".grib2" = true :=
  C2_selected_key_has_grib2_ext euroCfg w2Listing wDate "x.grib2" "0" rfl

/-- C3: the variable normaliser is total (each role lookup is a total
function of the dataset's field-name list) and each of the three role
lookups returns `none` exactly when no field name occurs in the role's
alias list. -/
theorem C3_normalizer_none_iff_no_alias (data_vars : List String) :
    (t_var data_vars = none ↔ ∀ v ∈ data_vars, v ∉ t_aliases) ∧
    (u_var data_vars = none ↔ ∀ v ∈ data_vars, v ∉ u_aliases) ∧
    (v_var data_vars = none ↔ ∀ v ∈ data_vars, v ∉ v_aliases) := by
  refine ⟨?_, ?_, ?_⟩ <;>
    simp [t_var, u_var, v_var, List.find?_eq_none, List.contains]

/-- C4: for every provider, if no object matching the selection criteria
exists under any probed path of the 5-day window, then `find_latest_data`
returns the not-found result, `process_model` returns `false`, and no
download is attempted. -/
theorem C4_no_match_no_download (config : ProviderConfig) (env : Env)
    (model_name : String)
    (h : ∀ p ∈ probeSeq config env.dateStr, ∀ k ∈ env.listing p,
      matchKey config.source k = false) :
    find_latest_data config env.listing env.dateStr = none ∧
    (process_model env model_name config).1 = false ∧
    (process_model env model_name config).2.downloads = [] := by
  have hscan : scanPaths config.source env.listing (probeSeq config env.dateStr) = none :=
    (scanPaths_none_iff _ _ _).mpr h
  have hfind : find_latest_data config env.listing env.dateStr = none := by
    have hm := find_latest_fst config env.listing env.dateStr
    rw [hscan] at hm
    exact Option.map_eq_none'.mp hm
  refine ⟨hfind, ?_, ?_⟩ <;> simp [process_model_of_none env model_name config hfind]

/-- Environment with an empty storage backend, for the C4 witness. -/
def w4Env : Env := ⟨fun _ => [], wDate, fun _ => true, none⟩

theorem C4_no_match_no_download_witness :
    find_latest_data fcnCfg w4Env.listing w4Env.dateStr = none ∧
    (process_model w4Env "FourCastNet" fcnCfg).1 = false ∧
    (process_model w4Env "FourCastNet" fcnCfg).2.downloads = [] :=
  C4_no_match_no_download fcnCfg w4Env "FourCastNet"
    (fun _p _ k hk => absurd hk (List.not_mem_nil k))

/-! ## Claim C7 -/

/-- The acceptable forecast-hour markers per source: NOAA keys must carry
an `f012` or `f006` marker (in that preference order of the disjunction);
the ECMWF source imposes no marker, expressed by the empty marker, which
occurs in every name. -/
def markers (source : String) : List String :=
  if source = "noaa" then ["f012", "f006"] else [""]

theorem occursIn_nil_pat : ∀ l : List Char, occursIn [] l = true
  | [] => rfl
  | _ :: _ => rfl

theorem hasSubstr_empty (s : String) : hasSubstr s "" = true :=
  occursIn_nil_pat s.data

/-- C7: for every provider, the selector returns the first key of the
listing that ends in `.grib2` and contains one of the provider's
acceptable forecast-hour markers, and returns nothing (so the search
continues as not-found) when no key matches. -/
theorem C7_selector_first_match (e : String × ProviderConfig)
    (he : e ∈ BUCKET_CONFIG) (keys : List String) :
    selectKey e.2.source keys =
      keys.find? (fun k => strEndsWith k ".grib2" &&
        (markers e.2.source).any (fun m => hasSubstr k m)) := by
  simp only [BUCKET_CONFIG, List.mem_cons, List.not_mem_nil, or_false] at he
  have hfun : matchKey e.2.source =
      (fun k => strEndsWith k ".grib2" &&
        (markers e.2.source).any (fun m => hasSubstr k m)) := by
    funext k
    rcases he with rfl | rfl | rfl <;>
      simp [matchKey, markers, hasSubstr_empty, Bool.or_assoc]
  rw [selectKey, hfun]

theorem C7_selector_first_match_witness :
    selectKey eagleCfg.source ["a.idx", "b.f006.grib2"] =
      (["a.idx", "b.f006.grib2"]).find? (fun k => strEndsWith k ".grib2" &&
        (markers eagleCfg.source).any (fun m => hasSubstr k m)) :=
  C7_selector_first_match ("EAGLE-GraphCast", eagleCfg) (by decide)
    ["a.idx", "b.f006.grib2"]

/-! ## Claim C8 -/

/-- C8: in the rendering section, a role resolving to `none` makes the
corresponding image be skipped with a warning, while the other image is
still produced when its roles resolved: with no temperature variable the
temperature image is not written and its warning is printed; with a
missing wind component the wind image is not written and its warning is
printed; and in each situation the other image is written whenever its
own roles resolved. -/
theorem C8_missing_role_skips_image (model_name : String)
    (data_vars : List String) :
    (t_var data_vars = none →
      tempPng model_name ∉ (renderSection model_name data_vars).1 ∧
      (model_name ++ ": No temperature variable found") ∈
        (renderSection model_name data_vars).2) ∧
    ((u_var data_vars = none ∨ v_var data_vars = none) →
      windPng model_name ∉ (renderSection model_name data_vars).1 ∧
      (model_name ++ ": No wind variables found") ∈
        (renderSection model_name data_vars).2) ∧
    (t_var data_vars = none → (u_var data_vars).isSome →
      (v_var data_vars).isSome →
      windPng model_name ∈ (renderSection model_name data_vars).1) ∧
    ((u_var data_vars = none ∨ v_var data_vars = none) →
      (t_var data_vars).isSome →
      tempPng model_name ∈ (renderSection model_name data_vars).1) := by
  rcases ht : t_var data_vars with _ | tv <;>
    rcases hu : u_var data_vars with _ | uv <;>
      rcases hv : v_var data_vars with _ | vv <;>
        simp [renderSection, ht, hu, hv, tempPng_ne_windPng model_name,
          Ne.symm (tempPng_ne_windPng model_name)]

theorem C8_missing_role_skips_image_witness :
    tempPng "M" ∉ (renderSection "M" ["u10", "v10"]).1 ∧
    ("M" ++ ": No temperature variable found") ∈
      (renderSection "M" ["u10", "v10"]).2 ∧
    windPng "M" ∈ (renderSection "M" ["u10", "v10"]).1 := by
  have h := C8_missing_role_skips_image "M" ["u10", "v10"]
  exact ⟨(h.1 rfl).1, (h.1 rfl).2, h.2.2.1 rfl rfl rfl⟩

/-! ## Claim C5 -/

/-- C5 as stated by the specification: for every provider the probe
sequence covers 4 forecast cycles on each of the 5 days, and a path for
a strictly more recent forecast cycle is always probed before a path for
an older one. -/
def ClaimC5 : Prop :=
  ∀ e ∈ BUCKET_CONFIG, ∀ dateStr : Nat → String,
    (∀ i ∈ List.range 5,
      (((annProbeSeq e.2 dateStr).filter (fun a => a.1.1 == i)).map
        (fun a => a.1.2)).dedup.length = 4) ∧
    ∀ p q : Fin (annProbeSeq e.2 dateStr).length,
      moreRecent ((annProbeSeq e.2 dateStr).get p).1
        ((annProbeSeq e.2 dateStr).get q).1 → p < q

/-- C5 fails on the code: the ECMWF provider probes only 2 cycles per
day (00z and 12z), not 4; moreover even for the NOAA providers the 18z
path of a day — the most recent cycle of that day — is probed after the
older 00z path of the same day. -/
theorem C5_probe_cycles_counterexample : ¬ ClaimC5 := by
  intro h
  have h2 := (h ("EURO-AIFS", euroCfg) (by decide) (fun _ => "")).1 0 (by decide)
  exact absurd h2 (by decide)

/-- C5 amended: the annotated probe sequence projects onto the real path
sequence and onto a date-independent cycle list; NOAA providers cover 4
distinct cycles per day and the ECMWF provider 2; days are probed
most-recent first (day offsets are monotone along the sequence), and
within one day the cycle hours follow the fixed probe order 00, 12, 06,
18 (each NOAA hour twice, for the two path variants) rather than
most-recent-first. -/
theorem C5_probe_cycles_amended (e : String × ProviderConfig)
    (he : e ∈ BUCKET_CONFIG) (dateStr : Nat → String) :
    (annProbeSeq e.2 dateStr).map Prod.snd = probeSeq e.2 dateStr ∧
    (annProbeSeq e.2 dateStr).map Prod.fst = annCycleList e.2 ∧
    (∀ i ∈ List.range 5,
      (((annCycleList e.2).filter (fun a => a.1 == i)).map
        (fun a => a.2)).dedup.length =
        (if e.2.source = "noaa" then 4 else 2)) ∧
    (∀ i ∈ List.range 5,
      ((annCycleList e.2).filter (fun a => a.1 == i)).map (fun a => a.2) =
        (if e.2.source = "noaa" then [0, 0, 12, 12, 6, 6, 18, 18]
          else [0, 12])) ∧
    ∀ p q : Fin (annCycleList e.2).length,
      p ≤ q → ((annCycleList e.2).get p).1 ≤ ((annCycleList e.2).get q).1 := by
  simp only [BUCKET_CONFIG, List.mem_cons, List.not_mem_nil, or_false] at he
  rcases he with rfl | rfl | rfl
  · exact ⟨rfl, rfl, by decide, by decide, by decide⟩
  · exact ⟨rfl, rfl, by decide, by decide, by decide⟩
  · exact ⟨rfl, rfl, by decide, by decide, by decide⟩

theorem C5_probe_cycles_amended_witness :
    (annProbeSeq fcnCfg wDate).map Prod.snd = probeSeq fcnCfg wDate ∧
    ((annCycleList fcnCfg).filter (fun a => a.1 == 0)).map (fun a => a.2) =
      [0, 0, 12, 12, 6, 6, 18, 18] := by
  have h := C5_probe_cycles_amended ("FourCastNet", fcnCfg) (by decide) wDate
  refine ⟨h.1, ?_⟩
  have h4 := h.2.2.2.1 0 (by decide)
  simpa [fcnCfg] using h4

/-! ## Claim C6 -/

/-- C6 as stated by the specification: a returned key comes from the
first probed path whose storage listing returned at least one object,
and probing stops at that first non-empty path. -/
def ClaimC6 : Prop :=
  ∀ (config : ProviderConfig) (listing : String → List String)
    (dateStr : Nat → String) (k ds : String),
    find_latest_data config listing dateStr = some (k, ds) →
    ∃ p, (probeSeq config dateStr).find? (fun q => !(listing q).isEmpty) = some p ∧
      k ∈ listing p ∧
      probedPaths config listing dateStr =
        (probeSeq config dateStr).takeWhile (fun q => (listing q).isEmpty) ++ [p]

/-- Storage backend refuting C6: the first probed FourCastNet path has a
non-empty listing containing no matching key (an `.idx` object), and the
second probed path holds the GRIB2 file. -/
def c6Listing : String → List String := fun p =>
  if p = "fcngfs.0/00/forecasts/" then ["junk.idx"]
  else if p = "fcngfs.0/00/" then ["sfc.f012.grib2"] else []

/-- C6 fails on the code: in the `c6Listing` backend the resolver
returns `sfc.f012.grib2`, which does not lie under the first non-empty
path `fcngfs.0/00/forecasts/` — the scan passes over a non-empty listing
with no matching key and probes further paths. -/
theorem C6_first_nonempty_counterexample :
    find_latest_data fcnCfg c6Listing wDate = some ("sfc.f012.grib2", "0") ∧
    ¬ ClaimC6 := by
  refine ⟨rfl, ?_⟩
  intro h
  obtain ⟨p, hp, hk, -⟩ := h fcnCfg c6Listing wDate "sfc.f012.grib2" "0" rfl
  have hp0 : (probeSeq fcnCfg wDate).find? (fun q => !(c6Listing q).isEmpty) =
      some "fcngfs.0/00/forecasts/" := rfl
  rw [hp0] at hp
  have hpe := Option.some.inj hp
  subst hpe
  exact absurd hk (by decide)

/-- C6 amended: the returned key is the selector's first match in the
listing of the first probed path whose listing contains a matching key
(paths with non-empty listings but no matching key are passed over), and
probing stops exactly at that path: the probed paths are the probe
sequence up to the first path with a selector hit, inclusive. -/
theorem C6_first_matching_amended (config : ProviderConfig)
    (listing : String → List String) (dateStr : Nat → String) (k ds : String)
    (h : find_latest_data config listing dateStr = some (k, ds)) :
    ((probeSeq config dateStr).find?
        (fun q => (selectKey config.source (listing q)).isSome)).bind
      (fun p => selectKey config.source (listing p)) = some k ∧
    probedPaths config listing dateStr =
      (probeSeq config dateStr).takeWhile
          (fun q => (selectKey config.source (listing q)).isNone) ++
        ((probeSeq config dateStr).find?
            (fun q => (selectKey config.source (listing q)).isSome)).toList := by
  constructor
  · have h1 : (find_latest_data config listing dateStr).map Prod.fst = some k := by
      rw [h]; rfl
    rw [find_latest_fst, scanPaths_eq] at h1
    exact h1
  · exact probedPaths_eq config listing dateStr

/-- Backend for the C6 witness: one matching file under the first
GraphCast path. -/
def c6wListing : String → List String := fun p =>
  if p = "graphcastgfs.0/00/forecasts/" then ["a.f006.grib2"] else []

theorem C6_first_matching_amended_witness :
    ((probeSeq eagleCfg wDate).find?
        (fun q => (selectKey eagleCfg.source (c6wListing q)).isSome)).bind
      (fun p => selectKey eagleCfg.source (c6wListing p)) = some "a.f006.grib2" ∧
    probedPaths eagleCfg c6wListing wDate =
      (probeSeq eagleCfg wDate).takeWhile
          (fun q => (selectKey eagleCfg.source (c6wListing q)).isNone) ++
        ((probeSeq eagleCfg wDate).find?
            (fun q => (selectKey eagleCfg.source (c6wListing q)).isSome)).toList :=
  C6_first_matching_amended eagleCfg c6wListing wDate "a.f006.grib2" "0" rfl

/-! ## Claim C9 -/

/-- C9 as stated by the specification: whenever the storage backend
holds a recognizable forecast file at the first probed path (a key the
selector accepts, downloadable, and whose dataset opens under the
surface-level filter), the run produces exactly the two images
`assets/{model}_temp.png` and `assets/{model}_wind.png` for that
provider and `process_model` returns `true`. -/
def ClaimC9 : Prop :=
  ∀ (model_name : String) (config : ProviderConfig) (env : Env)
    (p0 : String) (rest : List String) (k : String) (vars : List String),
    probeSeq config env.dateStr = p0 :: rest →
    selectKey config.source (env.listing p0) = some k →
    env.downloadOk k = true →
    env.openResult = some vars →
    (process_model env model_name config).1 = true ∧
    (process_model env model_name config).2.images =
      [tempPng model_name, windPng model_name]

/-- Backend holding a selector-matching file at the first probed
FourCastNet path. -/
def c9Listing : String → List String := fun p =>
  if p = "fcngfs.0/00/forecasts/" then ["ok.f012.grib2"] else []

/-- Environment refuting C9: the file resolves, downloads and opens, but
the opened dataset exposes no variables at all. -/
def c9Env : Env := ⟨c9Listing, wDate, fun _ => true, some []⟩

/-- C9 fails on the code: with a recognizable file at the first probed
path but a dataset resolving none of the three roles, `process_model`
still returns `true` while writing zero images, so the run does not
produce the two image files. -/
theorem C9_two_images_counterexample :
    (process_model c9Env "FourCastNet" fcnCfg).1 = true ∧
    (process_model c9Env "FourCastNet" fcnCfg).2.images = [] ∧
    ¬ ClaimC9 := by
  refine ⟨rfl, rfl, ?_⟩
  intro h
  have h2 := h "FourCastNet" fcnCfg c9Env "fcngfs.0/00/forecasts/"
    (probeSeq fcnCfg wDate).tail "ok.f012.grib2" [] rfl rfl rfl rfl
  have himg : ([] : List String) =
      [tempPng "FourCastNet", windPng "FourCastNet"] := h2.2
  exact List.noConfusion himg

/-- C9 amended: with a recognizable file at the first probed path whose
dataset moreover resolves the temperature role and both wind roles, the
run produces exactly the two images and reports success. -/
theorem C9_two_images_amended (model_name : String) (config : ProviderConfig)
    (env : Env) (p0 : String) (rest : List String) (k : String)
    (vars : List String)
    (hseq : probeSeq config env.dateStr = p0 :: rest)
    (hsel : selectKey config.source (env.listing p0) = some k)
    (hdl : env.downloadOk k = true)
    (hopen : env.openResult = some vars)
    (ht : (t_var vars).isSome) (hu : (u_var vars).isSome)
    (hv : (v_var vars).isSome) :
    (process_model env model_name config).1 = true ∧
    (process_model env model_name config).2.images =
      [tempPng model_name, windPng model_name] := by
  have hscan : scanPaths config.source env.listing (probeSeq config env.dateStr) =
      some k := by
    rw [hseq, scanPaths_cons, hsel, Option.or_some]
  have hmap : (find_latest_data config env.listing env.dateStr).map Prod.fst =
      some k := by
    rw [find_latest_fst]; exact hscan
  obtain ⟨pair, hpair, hfst⟩ := Option.map_eq_some'.mp hmap
  obtain ⟨k', ds⟩ := pair
  cases hfst
  have hpm := process_model_of_ok env model_name config k' ds vars hpair hdl hopen
  obtain ⟨tv, htv⟩ := Option.isSome_iff_exists.mp ht
  obtain ⟨uv, huv⟩ := Option.isSome_iff_exists.mp hu
  obtain ⟨vv, hvv⟩ := Option.isSome_iff_exists.mp hv
  rw [hpm]
  exact ⟨rfl, by simp [renderSection, htv, huv, hvv]⟩

/-- Environment for the C9 witness: the dataset resolves all three
roles. -/
def c9wEnv : Env := ⟨c9Listing, wDate, fun _ => true, some ["t2m", "u10", "v10"]⟩

theorem C9_two_images_amended_witness :
    (process_model c9wEnv "FourCastNet" fcnCfg).1 = true ∧
    (process_model c9wEnv "FourCastNet" fcnCfg).2.images =
      [tempPng "FourCastNet", windPng "FourCastNet"] :=
  C9_two_images_amended "FourCastNet" fcnCfg c9wEnv "fcngfs.0/00/forecasts/"
    (probeSeq fcnCfg wDate).tail "ok.f012.grib2" ["t2m", "u10", "v10"]
    rfl rfl rfl rfl rfl rfl rfl

/-! ## Claim C10 -/

/-- C10: a provider can be reported as succeeded with zero images
written: when resolution, download and dataset opening succeed but no
field matches the temperature aliases and the wind roles do not both
resolve, `process_model` returns `true` with no image written, the
provider counts toward `success_count`, and the process exits with
status zero. -/
theorem C10_success_without_images (model_name : String)
    (config : ProviderConfig) (env : Env) (k ds : String)
    (vars : List String)
    (hmem : (model_name, config) ∈ BUCKET_CONFIG)
    (hfind : find_latest_data config env.listing env.dateStr = some (k, ds))
    (hdl : env.downloadOk k = true)
    (hopen : env.openResult = some vars)
    (ht : t_var vars = none)
    (hw : u_var vars = none ∨ v_var vars = none) :
    (process_model env model_name config).1 = true ∧
    (process_model env model_name config).2.images = [] ∧
    exitCode env = 0 := by
  have hpm := process_model_of_ok env model_name config k ds vars hfind hdl hopen
  have himg : (renderSection model_name vars).1 = [] := by
    rcases hw with hw | hw
    · simp [renderSection, ht, hw]
    · cases hu : u_var vars <;> simp [renderSection, ht, hu, hw]
  refine ⟨by rw [hpm], by rw [hpm]; exact himg, ?_⟩
  have hsucc : 0 < success_count env := by
    rw [success_count, List.countP_pos_iff]
    refine ⟨(model_name, true), ?_, rfl⟩
    rw [mainLoop]
    exact List.mem_map.mpr ⟨(model_name, config), hmem, by simp [hpm]⟩
  rw [exitCode, if_neg (Nat.pos_iff_ne_zero.mp hsucc)]

/-- Environment for the C10 witness: the dataset's only field matches no
alias table. -/
def c10Env : Env := ⟨c9Listing, wDate, fun _ => true, some ["zzz"]⟩

theorem C10_success_without_images_witness :
    (process_model c10Env "FourCastNet" fcnCfg).1 = true ∧
    (process_model c10Env "FourCastNet" fcnCfg).2.images = [] ∧
    exitCode c10Env = 0 :=
  C10_success_without_images "FourCastNet" fcnCfg c10Env "ok.f012.grib2" "0"
    ["zzz"] (by decide) rfl rfl rfl rfl (Or.inl rfl)

end FetchPlot
